import Mathlib

/-!
Verification of the background refresh engine of a Dexcom status-bar app
(source: app.py). The Python source is shallowly embedded: pure fragments
become Lean functions, the application object becomes an explicit state
record, and the remote provider / settings file / UI dialogs become
explicit inputs (their outcomes are parameters of the functions that
consume them). Python floats are modelled as rationals; the claims at
stake only compare values, so no rounding behaviour is involved.
-/

namespace DexcomApp

/-- Style settings dictionary (keys of the style_settings dict in
app.py: number_low, number_normal, number_high, arrow_steady,
arrow_rising, arrow_falling, show_brackets). -/
structure StyleSettings where
  number_low : String
  number_normal : String
  number_high : String
  arrow_steady : String
  arrow_rising : String
  arrow_falling : String
  show_brackets : Bool
deriving DecidableEq, Repr

/-- Preferences dictionary (keys low_threshold, high_threshold,
notifications in app.py). Thresholds are Python floats, modelled as
rationals. -/
structure Preferences where
  low_threshold : ℚ
  high_threshold : ℚ
  notifications : Bool
deriving DecidableEq, Repr

/-- The aggregate persisted by persist_settings (app.py lines 404-412):
username, password, region, style_settings, preferences. -/
structure PersistedSettings where
  username : String
  password : String
  region : String
  style_settings : StyleSettings
  preferences : Preferences
deriving DecidableEq, Repr

/-- A parsed settings document (the result of json.load on
settings.json). Each of the five known top-level keys may be present or
absent; `unknown` models any extra top-level keys the file contains,
which no code path ever reads. -/
structure SettingsDoc where
  username? : Option String
  password? : Option String
  region? : Option String
  style_settings? : Option StyleSettings
  preferences? : Option Preferences
  unknown : List (String × String)
deriving DecidableEq, Repr

/-- The style defaults hard-coded in load_settings (app.py lines 35-43);
the inline fallback dict in DexcomMenuApp init (lines 274-282) is
identical. -/
def defaultStyle : StyleSettings :=
  { number_low := "Low: %s"
    number_normal := "Normal: %s"
    number_high := "High: %s"
    arrow_steady := "→"
    arrow_rising := "↑"
    arrow_falling := "↓"
    show_brackets := true }

/-- The preference defaults hard-coded in load_settings (app.py lines
44-48); the inline fallback dict in DexcomMenuApp init (lines 283-287)
is identical. -/
def defaultPreferences : Preferences :=
  { low_threshold := 70
    high_threshold := 180
    notifications := true }

/-- The full `defaults` dict of load_settings (app.py lines 31-49): a
document carrying every known top-level key. -/
def defaultsDoc : SettingsDoc :=
  { username? := some ""
    password? := some ""
    region? := some "us"
    style_settings? := some defaultStyle
    preferences? := some defaultPreferences
    unknown := [] }

/-- State of the settings file as seen by load_settings: missing
(os.path.exists false), unreadable or corrupt (open/json.load raises),
or readable with parsed content d. -/
inductive FileState where
  | missing
  | corrupt
  | content (d : SettingsDoc)
deriving DecidableEq

/-- load_settings (app.py lines 29-57): returns the parsed file when it
exists and parses, and the hard-coded defaults dict when the file is
missing or raises on read/parse (the error is printed, not raised). -/
def load_settings : FileState → SettingsDoc
  | FileState.missing => defaultsDoc
  | FileState.corrupt => defaultsDoc
  | FileState.content d => d

/-- save_settings (app.py lines 59-65) on a successful write: the file
now holds exactly the dumped document (json round-trips the strings,
booleans and numbers involved). -/
def save_settings (d : SettingsDoc) : FileState :=
  FileState.content d

/-- The document built by DexcomMenuApp.persist_settings (app.py lines
404-412) from the in-memory settings: all five keys present, nothing
else. -/
def persistDoc (s : PersistedSettings) : SettingsDoc :=
  { username? := some s.username
    password? := some s.password
    region? := some s.region
    style_settings? := some s.style_settings
    preferences? := some s.preferences
    unknown := [] }

/-- The settings-consuming part of DexcomMenuApp init (app.py lines
270-287): settings.get with a per-key default for each of the five known
keys; no other key of the document is read. -/
def initFromSettings (d : SettingsDoc) : PersistedSettings :=
  { username := d.username?.getD ""
    password := d.password?.getD ""
    region := d.region?.getD "us"
    style_settings := d.style_settings?.getD defaultStyle
    preferences := d.preferences?.getD defaultPreferences }

/-- A reading's value as the display code sees it: strVal is str(v)
(what the percent-operator substitutes), floatVal is the result of
float(v) when that conversion succeeds and none when it raises. -/
structure RawValue where
  floatVal : Option ℚ
  strVal : String
deriving DecidableEq, Repr

/-- One glucose reading from pydexcom: a value and a trend arrow string
(reading.value, reading.trend_arrow in app.py lines 362-363). -/
structure Reading where
  value : RawValue
  trend_arrow : String
deriving DecidableEq, Repr

/-- Outcome of the Dexcom constructor call in authenticate (app.py lines
341-346): a session handle, or an AccountError. -/
inductive AuthResult where
  | ok (session : String)
  | accountError (msg : String)
deriving DecidableEq

/-- Outcome of dexcom.get_current_glucose_reading() in fetch_data (app.py
line 360): a reading, an explicit None (no current reading), or a raised
exception (any provider failure, including session-expiry auth errors). -/
inductive ReadResult where
  | reading (r : Reading)
  | noReading
  | exn (msg : String)
deriving DecidableEq

/-- What fetch_data hands to the display sink: the title text plus the
emphasis bit (red when true, black when false) computed by
refresh_display_with_text. -/
structure RenderedPayload where
  text : String
  emphasized : Bool
deriving DecidableEq, Repr

/-- The mutable fields of the DexcomMenuApp object that the fetch cycle
touches: the session handle (self.dexcom), the last stored reading
(self.current_value / self.current_trend_arrow), the style and
preference dicts, and the currently displayed title text. -/
structure AppState where
  dexcom : Option String
  current_value : Option RawValue
  current_trend_arrow : Option String
  style_settings : StyleSettings
  preferences : Preferences
  displayed : Option String
deriving DecidableEq, Repr

/-- authenticate (app.py lines 341-346): on success self.dexcom becomes
the new session; on AccountError an alert is shown and self.dexcom is
set to None. -/
def authenticate (st : AppState) (res : AuthResult) : AppState :=
  match res with
  | AuthResult.ok s => { st with dexcom := some s }
  | AuthResult.accountError _ => { st with dexcom := none }

/-- Character-list worker for substPercentS: each occurrence of the two
characters percent-s is replaced by the value string. -/
def substPercentSAux (v : String) : List Char → List Char
  | [] => []
  | '%' :: 's' :: rest => v.data ++ substPercentSAux v rest
  | c :: rest => c :: substPercentSAux v rest

/-- Python's percent-operator as used on the style templates (app.py
line 377): every percent-s placeholder in the template is replaced by
str(value); the templates carry exactly one placeholder. -/
def substPercentS (tmpl v : String) : String :=
  String.mk (substPercentSAux v tmpl.data)

/-- Python's str.lower as used on the notifications field (app.py line
257), character by character. -/
def pyLower (s : String) : String :=
  String.mk (s.data.map Char.toLower)

/-- The formatting block of fetch_data (app.py lines 364-381): coerce
the stored value with float() (0 on failure), pick template and arrow by
strict threshold comparison, substitute str(value) for the placeholder,
and join with brackets or a space. -/
def formatReading (style : StyleSettings) (prefs : Preferences)
    (rv : RawValue) : String :=
  let value : ℚ := rv.floatVal.getD 0
  let chosen :=
    if value < prefs.low_threshold then
      (style.number_low, style.arrow_falling)
    else if value > prefs.high_threshold then
      (style.number_high, style.arrow_rising)
    else
      (style.number_normal, style.arrow_steady)
  let number_text := substPercentS chosen.1 rv.strVal
  if style.show_brackets then
    "[" ++ number_text ++ "][" ++ chosen.2 ++ "]"
  else
    number_text ++ " " ++ chosen.2

/-- The three formatting bands of the threshold comparison in fetch_data
(app.py lines 368-376). -/
inductive Band where
  | low
  | normal
  | high
deriving DecidableEq, Repr

/-- Which branch of the if/elif/else chain in fetch_data (app.py lines
368-376) a coerced value falls into. -/
def bandOf (prefs : Preferences) (v : ℚ) : Band :=
  if v < prefs.low_threshold then Band.low
  else if v > prefs.high_threshold then Band.high
  else Band.normal

/-- The template assigned in each branch of the chain (number_low /
number_normal / number_high). -/
def bandTemplate (style : StyleSettings) : Band → String
  | Band.low => style.number_low
  | Band.normal => style.number_normal
  | Band.high => style.number_high

/-- The arrow assigned in each branch of the chain (arrow_falling /
arrow_steady / arrow_rising). -/
def bandArrow (style : StyleSettings) : Band → String
  | Band.low => style.arrow_falling
  | Band.normal => style.arrow_steady
  | Band.high => style.arrow_rising

/-- The text produced when a given band's template and arrow are filled
with a value string and joined per show_brackets. -/
def renderBand (style : StyleSettings) (b : Band) (s : String) : String :=
  let number_text := substPercentS (bandTemplate style b) s
  if style.show_brackets then
    "[" ++ number_text ++ "][" ++ bandArrow style b ++ "]"
  else
    number_text ++ " " ++ bandArrow style b

/-- The float(self.current_value) coercion in refresh_display_with_text
(app.py lines 391-394): 0 when current_value is None or not numeric. -/
def emphasisValue (st : AppState) : ℚ :=
  match st.current_value with
  | none => 0
  | some rv => rv.floatVal.getD 0

/-- refresh_display_with_text (app.py lines 390-402): the title is set
to the given text; its color is red exactly when the coerced stored
value is above high_threshold or below low_threshold. -/
def refresh_display_with_text (st : AppState) (text : String) :
    AppState × RenderedPayload :=
  let value := emphasisValue st
  let emph := decide (value > st.preferences.high_threshold ∨
    value < st.preferences.low_threshold)
  ({ st with displayed := some text }, { text := text, emphasized := emph })

/-- fetch_data (app.py lines 354-388): authenticate if no session and
bail out silently if that fails; otherwise read, store the reading,
format it (or emit the fixed N/A / Err markers), and dispatch the text
to refresh_display_with_text. Returns the new state and the payload
delivered to the display, if any. -/
def fetch_data (st : AppState) (auth : AuthResult) (res : ReadResult) :
    AppState × Option RenderedPayload :=
  let st1 := if st.dexcom.isNone then authenticate st auth else st
  match st1.dexcom with
  | none => (st1, none)
  | some _ =>
    match res with
    | ReadResult.reading r =>
      let st2 := { st1 with current_value := some r.value, current_trend_arrow := some r.trend_arrow }
      let text := formatReading st2.style_settings st2.preferences r.value
      let out := refresh_display_with_text st2 text
      (out.1, some out.2)
    | ReadResult.noReading =>
      let out := refresh_display_with_text st1 "[N/A][?]"
      (out.1, some out.2)
    | ReadResult.exn _ =>
      let out := refresh_display_with_text st1 "[Err][?]"
      (out.1, some out.2)

/-- The value refresh_display_with_text will use for the emphasis color
at the end of a fetch with outcome res: the new reading's coerced value
when a reading arrives (current_value is overwritten first), the stored
one otherwise. -/
def emphValueFor (st : AppState) (res : ReadResult) : ℚ :=
  match res with
  | ReadResult.reading r => r.value.floatVal.getD 0
  | _ => emphasisValue st

/-- One event seen by the refresh scheduler: a trigger (the 300-second
rumps.Timer tick or the Update Now menu item, both of which call
update_data) or the completion of one running fetch thread. -/
inductive SchedEvent where
  | trigger
  | complete
deriving DecidableEq, Repr

/-- update_data (app.py lines 351-352) as it affects the number of
running fetch threads: threading.Thread(target=self.fetch_data).start()
unconditionally starts one more thread — the source has no in-flight
guard, queue, or pending-coalesce flag. -/
def update_data_spawn (inFlight : Nat) : Nat :=
  inFlight + 1

/-- Effect of one scheduler event on the number of fetch threads
currently running. -/
def schedStep (inFlight : Nat) : SchedEvent → Nat
  | SchedEvent.trigger => update_data_spawn inFlight
  | SchedEvent.complete => inFlight - 1

/-- Number of fetch threads running after a sequence of scheduler
events, starting from none. -/
def inFlightAfter (evs : List SchedEvent) : Nat :=
  evs.foldl schedStep 0

/-- Raw outcome of the Preferences dialog (get_preferences, app.py lines
206-260): whether OK was pressed, the float() parse of each threshold
field (none when the conversion raises), and the literal text of the
notifications field. -/
structure PrefDialogResult where
  okPressed : Bool
  lowParse : Option ℚ
  highParse : Option ℚ
  notifText : String
deriving DecidableEq, Repr

/-- get_preferences (app.py lines 246-260): on OK, each threshold field
that fails float() individually falls back to 70 or 180 and the
notifications flag is the case-insensitive comparison with true; no
relation between the two thresholds is checked. On Cancel, None. -/
def get_preferences (inp : PrefDialogResult) : Option Preferences :=
  if inp.okPressed then
    some { low_threshold := inp.lowParse.getD 70
           high_threshold := inp.highParse.getD 180
           notifications := pyLower inp.notifText == "true" }
  else
    none

/-- open_preferences (app.py lines 333-339): any non-None dialog result
replaces self.preferences unconditionally. (The subsequent
self.refresh_display() call raises AttributeError — no such method
exists — so the persist_settings() call on line 339 is never reached;
the in-memory mutation modelled here is what remains.) -/
def open_preferences (st : AppState) (inp : PrefDialogResult) : AppState :=
  match get_preferences inp with
  | some p => { st with preferences := p }
  | none => st

/-- A concrete app state for witnesses: freshly authenticated, default
style and preferences, nothing fetched yet. -/
def demoState : AppState :=
  { dexcom := some "session"
    current_value := none
    current_trend_arrow := none
    style_settings := defaultStyle
    preferences := defaultPreferences
    displayed := none }

end DexcomApp

namespace DexcomApp

theorem formatReading_eq_renderBand (style : StyleSettings)
    (prefs : Preferences) (rv : RawValue) :
    formatReading style prefs rv =
      renderBand style (bandOf prefs (rv.floatVal.getD 0)) rv.strVal := by
  simp only [formatReading, renderBand, bandOf, bandTemplate, bandArrow]
  split_ifs <;> rfl

theorem fetch_data_with_session (st : AppState) (s : String)
    (hdx : st.dexcom = some s) (auth : AuthResult) (res : ReadResult) :
    fetch_data st auth res =
      match res with
      | ReadResult.reading r =>
        let st2 := { st with current_value := some r.value, current_trend_arrow := some r.trend_arrow }
        let text := formatReading st2.style_settings st2.preferences r.value
        let out := refresh_display_with_text st2 text
        (out.1, some out.2)
      | ReadResult.noReading =>
        let out := refresh_display_with_text st "[N/A][?]"
        (out.1, some out.2)
      | ReadResult.exn _ =>
        let out := refresh_display_with_text st "[Err][?]"
        (out.1, some out.2) := by
  cases st
  cases hdx
  rfl

/-- C6: loading settings never fails the caller — when the settings file
is missing or unreadable/corrupt, load_settings returns the hard-coded
defaults (thresholds 70 and 180, notifications on, bracketed display,
arrows →, ↑, ↓) instead of raising. -/
theorem C6_load_defaults :
    load_settings FileState.missing = defaultsDoc ∧
    load_settings FileState.corrupt = defaultsDoc ∧
    (initFromSettings defaultsDoc).preferences.low_threshold = 70 ∧
    (initFromSettings defaultsDoc).preferences.high_threshold = 180 ∧
    (initFromSettings defaultsDoc).preferences.notifications = true ∧
    (initFromSettings defaultsDoc).style_settings.show_brackets = true ∧
    (initFromSettings defaultsDoc).style_settings.arrow_steady = "→" ∧
    (initFromSettings defaultsDoc).style_settings.arrow_rising = "↑" ∧
    (initFromSettings defaultsDoc).style_settings.arrow_falling = "↓" :=
  ⟨rfl, rfl, rfl, rfl, rfl, rfl, rfl, rfl, rfl⟩

/-- C7: persistence round-trips — for every PersistedSettings value s,
writing it with persist_settings/save_settings and then loading and
re-reading the document yields a PersistedSettings equal to s. -/
theorem C7_roundtrip (s : PersistedSettings) :
    initFromSettings (load_settings (save_settings (persistDoc s))) = s :=
  rfl

/-- C9: on load, unknown top-level fields are ignored, and each missing
field falls back to its default individually: a document that parses but
omits some fields still yields the values it does contain, with defaults
filled in only for the omitted fields. -/
theorem C9_field_by_field (d : SettingsDoc) :
    initFromSettings (load_settings (FileState.content d)) =
      { username := d.username?.getD ""
        password := d.password?.getD ""
        region := d.region?.getD "us"
        style_settings := d.style_settings?.getD defaultStyle
        preferences := d.preferences?.getD defaultPreferences } ∧
    (∀ extra : List (String × String),
      initFromSettings (load_settings (FileState.content
        { d with unknown := extra })) =
      initFromSettings (load_settings (FileState.content d))) :=
  ⟨rfl, fun _ => rfl⟩

/-- C1: with low < high and a numeric reading value v, exactly one
formatting band is selected — the low band exactly when v is strictly
below low, the high band exactly when v is strictly above high, and the
normal band exactly on the closed interval (so boundary values are
normal) — and the delivered display text is that band's template and
arrow; the reading's own trend indicator, universally quantified here,
never influences it. -/
theorem C1_band_selection (st : AppState) (s : String)
    (hdx : st.dexcom = some s)
    (hlt : st.preferences.low_threshold < st.preferences.high_threshold)
    (rv : RawValue) (v : ℚ) (hv : rv.floatVal = some v)
    (trend : String) (auth : AuthResult) :
    ((bandOf st.preferences v = Band.low ↔
        v < st.preferences.low_threshold) ∧
     (bandOf st.preferences v = Band.high ↔
        st.preferences.high_threshold < v) ∧
     (bandOf st.preferences v = Band.normal ↔
        st.preferences.low_threshold ≤ v ∧
        v ≤ st.preferences.high_threshold)) ∧
    (fetch_data st auth
        (ReadResult.reading { value := rv, trend_arrow := trend })).2.map
      RenderedPayload.text =
      some (renderBand st.style_settings (bandOf st.preferences v)
        rv.strVal) := by
  constructor
  · unfold bandOf
    split_ifs with h1 h2
    · refine ⟨⟨fun _ => h1, fun _ => rfl⟩, ?_, ?_⟩
      · exact ⟨fun h => absurd h (by decide),
          fun h => absurd h1 (not_lt.mpr (by linarith))⟩
      · exact ⟨fun h => absurd h (by decide),
          fun h => absurd h1 (not_lt.mpr h.1)⟩
    · refine ⟨?_, ⟨fun _ => h2, fun _ => rfl⟩, ?_⟩
      · exact ⟨fun h => absurd h (by decide), fun h => absurd h h1⟩
      · exact ⟨fun h => absurd h (by decide),
          fun h => absurd h2 (not_lt.mpr h.2)⟩
    · refine ⟨?_, ?_,
        ⟨fun _ => ⟨not_lt.mp h1, not_lt.mp h2⟩, fun _ => rfl⟩⟩
      · exact ⟨fun h => absurd h (by decide), fun h => absurd h h1⟩
      · exact ⟨fun h => absurd h (by decide), fun h => absurd h h2⟩
  · rw [fetch_data_with_session st s hdx]
    dsimp only [refresh_display_with_text]
    rw [formatReading_eq_renderBand, hv]
    rfl

/-- Witness for C1: the demo state (thresholds 70 and 180) with reading
value 120 and a trend arrow it must ignore. -/
theorem C1_band_selection_witness :
    demoState.dexcom = some "session" ∧
    demoState.preferences.low_threshold <
      demoState.preferences.high_threshold ∧
    ({ floatVal := some 120, strVal := "120" } : RawValue).floatVal =
      some 120 ∧
    (((bandOf demoState.preferences 120 = Band.low ↔
        (120 : ℚ) < demoState.preferences.low_threshold) ∧
      (bandOf demoState.preferences 120 = Band.high ↔
        demoState.preferences.high_threshold < (120 : ℚ)) ∧
      (bandOf demoState.preferences 120 = Band.normal ↔
        demoState.preferences.low_threshold ≤ (120 : ℚ) ∧
        (120 : ℚ) ≤ demoState.preferences.high_threshold)) ∧
     (fetch_data demoState (AuthResult.ok "x")
        (ReadResult.reading
          { value := { floatVal := some 120, strVal := "120" },
            trend_arrow := "Flat" })).2.map RenderedPayload.text =
       some (renderBand demoState.style_settings
         (bandOf demoState.preferences 120) "120")) :=
  ⟨rfl, by decide, rfl,
    C1_band_selection demoState "session" rfl (by decide)
      { floatVal := some 120, strVal := "120" } 120 rfl "Flat"
      (AuthResult.ok "x")⟩

/-- C2 counterexample: two triggers while the first fetch has not
completed (the trace trigger, trigger — exactly the two triggers at t=0
and t=0.1T of the claim) leave two fetch threads running at once, so the
two fetches overlap in time, contradicting the claimed single-in-flight
coalescing. -/
theorem C2_cex_overlapping_fetches :
    inFlightAfter [SchedEvent.trigger, SchedEvent.trigger] = 2 ∧
    1 < inFlightAfter [SchedEvent.trigger, SchedEvent.trigger] := by
  constructor
  · rfl
  · decide

/-- C2 amended: update_data starts a new fetch thread on every trigger;
triggers arriving while a fetch is in flight are neither blocked nor
coalesced, so k triggers with no intervening completion leave k fetches
running concurrently (two triggers during one fetch of duration T give
exactly two fetches, but they overlap). -/
theorem C2_amended_spawn_per_trigger (k : Nat) :
    inFlightAfter (List.replicate k SchedEvent.trigger) = k := by
  have general : ∀ k n : Nat,
      List.foldl schedStep n (List.replicate k SchedEvent.trigger) =
        n + k := by
    intro k
    induction k with
    | zero => intro n; rfl
    | succ m ih =>
      intro n
      rw [List.replicate_succ, List.foldl_cons, ih]
      show n + 1 + m = n + (m + 1)
      omega
  rw [inFlightAfter, general]
  omega

/-- C3 counterexample: a cycle in which the provider reports no current
reading while no numeric value is stored delivers the no-reading marker
with the emphasis flag set (0 falls below the default low threshold 70),
whereas the claim requires the flag to be false for the no-reading
marker. -/
theorem C3_cex_na_payload_emphasized :
    (fetch_data demoState (AuthResult.ok "x") ReadResult.noReading).2 =
      some { text := "[N/A][?]", emphasized := true } ∧
    (fetch_data demoState (AuthResult.ok "x") ReadResult.noReading).2 ≠
      some { text := "[N/A][?]", emphasized := false } := by
  constructor
  · rfl
  · decide

/-- C3 amended: the emphasis flag of every delivered payload is computed
from the stored current value — the fresh reading's value when a reading
arrives, the previous one (0 when absent or non-numeric) for no-reading
and error payloads — and is true exactly when that value lies strictly
outside the closed threshold interval; it is not tied to the payload
text, so no-reading and error markers can render emphasized. -/
theorem C3_amended_emphasis_from_stored (st : AppState) (s : String)
    (hdx : st.dexcom = some s) (auth : AuthResult) (res : ReadResult)
    (p : RenderedPayload)
    (hp : (fetch_data st auth res).2 = some p) :
    p.emphasized = true ↔
      (emphValueFor st res < st.preferences.low_threshold ∨
       st.preferences.high_threshold < emphValueFor st res) := by
  rw [fetch_data_with_session st s hdx] at hp
  cases res with
  | reading r =>
    simp only [refresh_display_with_text, emphasisValue, emphValueFor,
      Option.some.injEq] at hp ⊢
    rw [← hp]
    simp only [decide_eq_true_eq]
    tauto
  | noReading =>
    simp only [refresh_display_with_text, emphValueFor,
      Option.some.injEq] at hp ⊢
    rw [← hp]
    simp only [decide_eq_true_eq]
    tauto
  | exn msg =>
    simp only [refresh_display_with_text, emphValueFor,
      Option.some.injEq] at hp ⊢
    rw [← hp]
    simp only [decide_eq_true_eq]
    tauto

/-- Witness for C3 amended: the no-reading cycle of the counterexample,
whose emphasis bit is true because the absent stored value is coerced to
0, below the default low threshold 70. -/
theorem C3_amended_witness :
    (fetch_data demoState (AuthResult.ok "x")
        ReadResult.noReading).2 =
      some ({ text := "[N/A][?]", emphasized := true } :
        RenderedPayload) ∧
    (({ text := "[N/A][?]", emphasized := true } :
        RenderedPayload).emphasized = true ↔
      (emphValueFor demoState ReadResult.noReading <
        demoState.preferences.low_threshold ∨
       demoState.preferences.high_threshold <
        emphValueFor demoState ReadResult.noReading)) :=
  ⟨rfl,
    C3_amended_emphasis_from_stored demoState "session" rfl
      (AuthResult.ok "x") ReadResult.noReading
      { text := "[N/A][?]", emphasized := true } rfl⟩

/-- C4 counterexample: a present reading whose value is non-numeric is
not replaced by the N/A fallback — float() fails, the value is coerced
to 0, which selects the low band under the default thresholds, and the
raw value string is substituted into the low template with the falling
arrow. -/
theorem C4_cex_nonnumeric_not_na :
    (fetch_data demoState (AuthResult.ok "x")
        (ReadResult.reading
          { value := { floatVal := none, strVal := "abc" },
            trend_arrow := "Flat" })).2.map RenderedPayload.text =
      some "[Low: abc][↓]" ∧
    some ("[Low: abc][↓]" : String) ≠ some ("[N/A][?]" : String) := by
  constructor
  · rfl
  · decide

/-- C4 amended: only an absent reading produces the fixed no-reading
marker, which is distinct from the error marker; a present reading with
a non-numeric value is instead coerced to 0 for band selection and its
raw string is substituted into the selected band's template with that
band's arrow. -/
theorem C4_amended_na_only_when_absent (st : AppState) (s : String)
    (hdx : st.dexcom = some s) (auth : AuthResult) (rv : RawValue)
    (trend : String) (hrv : rv.floatVal = none) :
    (fetch_data st auth ReadResult.noReading).2.map
        RenderedPayload.text = some "[N/A][?]" ∧
    ("[N/A][?]" : String) ≠ "[Err][?]" ∧
    (fetch_data st auth
        (ReadResult.reading { value := rv, trend_arrow := trend })).2.map
      RenderedPayload.text =
      some (renderBand st.style_settings (bandOf st.preferences 0)
        rv.strVal) := by
  refine ⟨?_, by decide, ?_⟩
  · rw [fetch_data_with_session st s hdx]
    rfl
  · rw [fetch_data_with_session st s hdx]
    dsimp only [refresh_display_with_text]
    rw [formatReading_eq_renderBand, hrv]
    rfl

/-- Witness for C4 amended: the demo state with the non-numeric reading
value of the counterexample. -/
theorem C4_amended_witness :
    demoState.dexcom = some "session" ∧
    ({ floatVal := none, strVal := "abc" } : RawValue).floatVal = none ∧
    ((fetch_data demoState (AuthResult.ok "x")
        ReadResult.noReading).2.map RenderedPayload.text =
      some "[N/A][?]" ∧
     ("[N/A][?]" : String) ≠ "[Err][?]" ∧
     (fetch_data demoState (AuthResult.ok "x")
        (ReadResult.reading
          { value := { floatVal := none, strVal := "abc" },
            trend_arrow := "Flat" })).2.map RenderedPayload.text =
       some (renderBand demoState.style_settings
         (bandOf demoState.preferences 0) "abc")) :=
  ⟨rfl, rfl,
    C4_amended_na_only_when_absent demoState "session" rfl
      (AuthResult.ok "x") { floatVal := none, strVal := "abc" }
      "Flat" rfl⟩

/-- C5 counterexample: a dialog input with low 200 and high 100 — low
strictly greater than high — is accepted by get_preferences and stored
verbatim by open_preferences, changing the preferences away from the
defaults, whereas the claim requires such input to be rejected with the
preferences left unchanged. -/
theorem C5_cex_inverted_thresholds_accepted :
    (open_preferences demoState
        { okPressed := true, lowParse := some 200,
          highParse := some 100, notifText := "true" }).preferences =
      { low_threshold := 200, high_threshold := 100,
        notifications := true } ∧
    ¬ ((200 : ℚ) < 100) ∧
    (open_preferences demoState
        { okPressed := true, lowParse := some 200,
          highParse := some 100, notifText := "true" }).preferences ≠
      demoState.preferences := by
  refine ⟨rfl, by decide, by decide⟩

/-- C5 amended: the settings-update boundary performs no low-less-than-
high validation — every OK-confirmed dialog result is accepted verbatim
(with each unparseable numeric field individually falling back to 70 or
180), including pairs with low greater than or equal to high, and the
two values are never swapped; preferences are left unchanged only when
the dialog is cancelled. -/
theorem C5_amended_no_threshold_validation (st : AppState)
    (inp : PrefDialogResult) (h : inp.okPressed = true) :
    (open_preferences st inp).preferences =
      { low_threshold := inp.lowParse.getD 70
        high_threshold := inp.highParse.getD 180
        notifications := pyLower inp.notifText == "true" } := by
  unfold open_preferences get_preferences
  rw [h]
  rfl

/-- Witness for C5 amended: the counterexample's inverted input, stored
as given. -/
theorem C5_amended_witness :
    ({ okPressed := true, lowParse := some 200, highParse := some 100,
        notifText := "TRUE" } : PrefDialogResult).okPressed = true ∧
    (open_preferences demoState
        { okPressed := true, lowParse := some 200,
          highParse := some 100, notifText := "TRUE" }).preferences =
      { low_threshold := (some (200 : ℚ)).getD 70
        high_threshold := (some (100 : ℚ)).getD 180
        notifications := pyLower "TRUE" == "true" } :=
  ⟨rfl,
    C5_amended_no_threshold_validation demoState
      { okPressed := true, lowParse := some 200, highParse := some 100,
        notifText := "TRUE" } rfl⟩

theorem fetch_data_auth_irrelevant (st : AppState) (s : String)
    (hdx : st.dexcom = some s) (a1 a2 : AuthResult) (res : ReadResult) :
    fetch_data st a1 res = fetch_data st a2 res := by
  rw [fetch_data_with_session st s hdx, fetch_data_with_session st s hdx]

/-- C8 counterexample: a provider exception during the read (such as a
session expiry) leaves self.dexcom holding the old session — the except
block of fetch_data never clears it — whereas the claim requires the
session to be invalidated so the next cycle re-authenticates. -/
theorem C8_cex_session_not_invalidated :
    (fetch_data demoState (AuthResult.ok "x")
        (ReadResult.exn "session expired")).1.dexcom = some "session" ∧
    (fetch_data demoState (AuthResult.ok "x")
        (ReadResult.exn "session expired")).1.dexcom ≠ none := by
  refine ⟨rfl, by decide⟩

/-- C8 amended: when the provider raises during the read, the error
marker is rendered for the current cycle and nothing is retried within
the call, but the session handle is left unchanged rather than
invalidated — so the following cycle reuses it and never consults the
authentication path (its outcome is independent of the authentication
result supplied to it). -/
theorem C8_amended_session_kept_on_error (st : AppState) (s : String)
    (hdx : st.dexcom = some s) (auth : AuthResult) (msg : String) :
    (fetch_data st auth (ReadResult.exn msg)).1.dexcom = some s ∧
    (fetch_data st auth (ReadResult.exn msg)).2.map
      RenderedPayload.text = some "[Err][?]" ∧
    ∀ (a1 a2 : AuthResult) (res : ReadResult),
      fetch_data (fetch_data st auth (ReadResult.exn msg)).1 a1 res =
      fetch_data (fetch_data st auth (ReadResult.exn msg)).1 a2 res := by
  have hState :
      (fetch_data st auth (ReadResult.exn msg)).1.dexcom = some s := by
    rw [fetch_data_with_session st s hdx]
    exact hdx
  refine ⟨hState, ?_,
    fun a1 a2 res => fetch_data_auth_irrelevant _ s hState a1 a2 res⟩
  rw [fetch_data_with_session st s hdx]
  rfl

/-- Witness for C8 amended: the demo state after a session-expiry
exception keeps its session, renders the error marker, and its next
fetch ignores the authentication outcome. -/
theorem C8_amended_witness :
    demoState.dexcom = some "session" ∧
    ((fetch_data demoState (AuthResult.ok "x")
        (ReadResult.exn "session expired")).1.dexcom =
      some "session" ∧
     (fetch_data demoState (AuthResult.ok "x")
        (ReadResult.exn "session expired")).2.map
       RenderedPayload.text = some "[Err][?]" ∧
     ∀ (a1 a2 : AuthResult) (res : ReadResult),
       fetch_data (fetch_data demoState (AuthResult.ok "x")
           (ReadResult.exn "session expired")).1 a1 res =
       fetch_data (fetch_data demoState (AuthResult.ok "x")
           (ReadResult.exn "session expired")).1 a2 res) :=
  ⟨rfl,
    C8_amended_session_kept_on_error demoState "session" rfl
      (AuthResult.ok "x") "session expired"⟩

/-- C10: when no session exists and authentication fails to produce one,
fetch_data returns with the whole application state unchanged — in
particular the displayed text — and delivers no payload, so no error
marker is rendered for that cycle. -/
theorem C10_no_session_silent_return (st : AppState)
    (hdx : st.dexcom = none) (msg : String) (res : ReadResult) :
    fetch_data st (AuthResult.accountError msg) res = (st, none) := by
  cases st
  cases hdx
  rfl

/-- Witness for C10: the demo state with its session removed, a rejected
authentication attempt, and a read outcome that is never reached. -/
theorem C10_witness :
    ({ demoState with dexcom := none } : AppState).dexcom = none ∧
    fetch_data { demoState with dexcom := none }
        (AuthResult.accountError "bad credentials")
        ReadResult.noReading =
      ({ demoState with dexcom := none }, none) :=
  ⟨rfl,
    C10_no_session_silent_return { demoState with dexcom := none } rfl
      "bad credentials" ReadResult.noReading⟩

end DexcomApp
